import Mathlib

/-!
# restexample: the products HTTP service

A shallow embedding of `main.go`: the `Product` entity, the `DB` store
(`AllProducts`, `FindProduct`) over a model of `database/sql` result cursors,
and the `Server` handlers (`listProducts`, `showProduct`, and the three stub
handlers) over a model of `net/http`'s `ResponseWriter`.

Conventions.
* A Go `(value, error)` result is a pair of options: `none` is Go's `nil`.
* A Go `[]*Product` is `Option (List (Option Product))`: the outer `none` is
  the nil slice, an inner `none` a nil pointer.
* Go's `int` is 64 bits wide (the width `strconv.Atoi` checks against).
* Handlers are state transformers on a `World`: the response writer, the
  trace of store operations invoked, and the lines handed to the logger.
-/

set_option autoImplicit false

namespace RestExample

/-! ## Errors -/

/-- Go `error` values as the program can tell them apart: the sentinel
`sql.ErrNoRows`, which `showProduct` compares against with `==`, and every
other error, identified by its message. -/
inductive Error where
  | ErrNoRows
  | other (msg : String)
  deriving DecidableEq, Repr

deriving instance DecidableEq for Except

/-! ## strconv.Atoi -/

/-- The value of an ASCII decimal digit, `none` for any other character. -/
def digitVal (c : Char) : Option Nat :=
  if '0' ≤ c ∧ c ≤ '9' then some (c.toNat - '0'.toNat) else none

/-- The syntax failure of `strconv.Atoi`. -/
def errSyntax : Error := .other "strconv.Atoi: invalid syntax"

/-- The range failure of `strconv.Atoi`. -/
def errRange : Error := .other "strconv.Atoi: value out of range"

/-- The digit loop of `strconv.ParseUint` in base 10 at 64 bits: each
character must be a decimal digit (else a syntax failure), and the running
value must stay below `2 ^ 64` (else a range failure, reported at the digit
that overflows). -/
def parseUint : List Char → Nat → Except Error Nat
  | [], n => .ok n
  | c :: cs, n =>
    match digitVal c with
    | none => .error errSyntax
    | some d =>
      if 2 ^ 64 ≤ n * 10 + d then .error errRange else parseUint cs (n * 10 + d)

/-- The signed step of `strconv.ParseInt`: the digits after the sign must be
there, must parse, and the signed value must fit in 64 bits. -/
def parseSigned (neg : Bool) (ds : List Char) : Except Error Int :=
  match ds with
  | [] => .error errSyntax
  | _ =>
    match parseUint ds 0 with
    | .error e => .error e
    | .ok n =>
      if neg then
        if n ≤ 2 ^ 63 then .ok (-(n : Int)) else .error errRange
      else
        if n < 2 ^ 63 then .ok (n : Int) else .error errRange

/-- Go's `strconv.Atoi` on a 64-bit platform: an optional single `+` or `-`,
then one or more decimal digits, and the value must fit in `int`. -/
def Atoi (s : String) : Except Error Int :=
  match s.data with
  | '-' :: ds => parseSigned true ds
  | '+' :: ds => parseSigned false ds
  | ds => parseSigned false ds

/-! ## net/http: status texts, the response writer, http.Error -/

/-- Go's `http.StatusText` on the codes this program uses; like Go, the
empty string for a code it does not know. -/
def StatusText (code : Nat) : String :=
  if code = 200 then "OK"
  else if code = 400 then "Bad Request"
  else if code = 404 then "Not Found"
  else if code = 500 then "Internal Server Error"
  else ""

/-- The state of an `http.ResponseWriter` that records what the handler
writes (it never fails a write): the header map, the status code once the
header has been written, and the body bytes so far. -/
structure ResponseWriter where
  header : List (String × String)
  code : Option Nat
  body : String
  deriving DecidableEq, Repr

namespace ResponseWriter

/-- The writer a handler is handed: nothing set, nothing written. -/
def fresh : ResponseWriter := { header := [], code := none, body := "" }

/-- The value of a header, `none` when the header is absent. -/
def get (w : ResponseWriter) (k : String) : Option String :=
  (w.header.find? (fun kv => kv.1 == k)).map (fun kv => kv.2)

/-- The handler's `w.Header().Set(k, v)`. Once the header has been written a
change to the map no longer reaches the response, so it is dropped. -/
def set (w : ResponseWriter) (k v : String) : ResponseWriter :=
  match w.code with
  | some _ => w
  | none => { w with header := (k, v) :: w.header.filter (fun kv => !(kv.1 == k)) }

/-- The handler's `w.Header().Del(k)`. -/
def del (w : ResponseWriter) (k : String) : ResponseWriter :=
  match w.code with
  | some _ => w
  | none => { w with header := w.header.filter (fun kv => !(kv.1 == k)) }

/-- The handler's `w.WriteHeader(code)`: the first call fixes the status, a
later one is superfluous and ignored. -/
def WriteHeader (w : ResponseWriter) (code : Nat) : ResponseWriter :=
  match w.code with
  | some _ => w
  | none => { w with code := some code }

/-- The handler's `w.Write(b)`: writes the header with 200 if it has not been
written, then appends the bytes. -/
def Write (w : ResponseWriter) (b : String) : ResponseWriter :=
  let w1 := w.WriteHeader 200
  { w1 with body := w1.body ++ b }

/-- The status the client receives once the handler has returned: the code
written, or 200 when the handler wrote none. -/
def status (w : ResponseWriter) : Nat := w.code.getD 200

end ResponseWriter

/-- Go's `http.Error(w, msg, code)`: sets the plain-text content type,
writes the header with `code`, and prints `msg` followed by a newline. -/
def httpError (w : ResponseWriter) (msg : String) (code : Nat) : ResponseWriter :=
  let w1 := w.del "Content-Length"
  let w2 := w1.set "Content-Type" "text/plain; charset=utf-8"
  let w3 := w2.set "X-Content-Type-Options" "nosniff"
  let w4 := w3.WriteHeader code
  w4.Write (msg ++ "\n")

/-! ## The entity -/

/-- A Go `float64`, as its IEEE 754 binary64 bit pattern. -/
structure Float64 where
  bits : Nat
  deriving DecidableEq, Repr

namespace Float64

/-- The eleven exponent bits. -/
def exponent (f : Float64) : Nat := (f.bits / 2 ^ 52) % 2 ^ 11

/-- The fifty-two fraction bits. -/
def fraction (f : Float64) : Nat := f.bits % 2 ^ 52

/-- Go's `math.IsNaN`. -/
def isNaN (f : Float64) : Bool := f.exponent == 2047 && f.fraction != 0

/-- Go's `math.IsInf(f, 0)`. -/
def isInf (f : Float64) : Bool := f.exponent == 2047 && f.fraction == 0

end Float64

/-- A Go `time.Time`, as the calendar reading in its own location together
with that location's offset from UTC in seconds. -/
structure Time where
  year : Int
  month : Nat
  day : Nat
  hour : Nat
  minute : Nat
  second : Nat
  nanosecond : Nat
  offset : Int
  deriving DecidableEq, Repr

/-- The `Product` struct, with its five fields in declaration order. -/
structure Product where
  ID : Int
  Title : String
  Description : String
  Price : Float64
  CreatedAt : Time
  deriving DecidableEq, Repr

/-! ## encoding/json -/

/-- The decimal digits of a natural number, padded with zeros on the left
to at least `width` characters. -/
def padNat (n width : Nat) : List Char :=
  let ds := Nat.toDigits 10 n
  List.replicate (width - ds.length) '0' ++ ds

/-- Go's `strconv.AppendInt(_, i, 10)`. -/
def formatInt (i : Int) : List Char :=
  if i < 0 then '-' :: Nat.toDigits 10 i.natAbs else Nat.toDigits 10 i.natAbs

/-- A lower-case hexadecimal digit. -/
def hexDigit (n : Nat) : Char := Nat.digitChar (n % 16)

/-- One character of a string as `encoding/json` writes it inside the quotes,
with the encoder's default HTML escaping on. -/
def escapeChar (c : Char) : List Char :=
  if c = '"' then ['\\', '"']
  else if c = '\\' then ['\\', '\\']
  else if c = '\x08' then ['\\', 'b']
  else if c = '\x0c' then ['\\', 'f']
  else if c = '\n' then ['\\', 'n']
  else if c = '\r' then ['\\', 'r']
  else if c = '\t' then ['\\', 't']
  else if c.toNat < 32 ∨ c = '<' ∨ c = '>' ∨ c = '&' then
    ['\\', 'u', '0', '0', hexDigit (c.toNat / 16), hexDigit c.toNat]
  else if c.toNat = 0x2028 then ['\\', 'u', '2', '0', '2', '8']
  else if c.toNat = 0x2029 then ['\\', 'u', '2', '0', '2', '9']
  else [c]

/-- A Go string as a JSON string literal. -/
def encodeString (s : String) : List Char :=
  '"' :: (s.data.flatMap escapeChar ++ ['"'])

/-- The error `encoding/json` raises on a NaN or infinite float. -/
def errUnsupportedValue : Error := .other "json: unsupported value"

/-- A `float64` as a JSON number: NaN and the infinities are refused; a
finite value is written by `fmtFloat`, the shortest-decimal formatting of
`strconv`, which is taken as a parameter. -/
def encodeFloat (fmtFloat : Float64 → String) (f : Float64) : Except Error (List Char) :=
  if f.isInf || f.isNaN then .error errUnsupportedValue else .ok (fmtFloat f).data

/-- The fractional-second part of the RFC 3339 layout with nanoseconds:
nothing for zero, else a dot and nine digits without their trailing zeros. -/
def formatNano (ns : Nat) : List Char :=
  if ns = 0 then []
  else '.' :: ((padNat ns 9).reverse.dropWhile (fun c => c == '0')).reverse

/-- The zone part of the RFC 3339 layout: `Z` at offset zero, else the sign
and the offset as hours and minutes. -/
def formatZone (offset : Int) : List Char :=
  if offset = 0 then ['Z']
  else
    let zone := offset.natAbs / 60
    let sign := if offset < 0 ∧ zone ≠ 0 then '-' else '+'
    sign :: (padNat (zone / 60) 2 ++ ':' :: padNat (zone % 60) 2)

/-- Go's `Time.AppendFormat(_, time.RFC3339Nano)`. -/
def formatRFC3339Nano (t : Time) : List Char :=
  (if t.year < 0 then '-' :: padNat t.year.natAbs 4 else padNat t.year.natAbs 4)
    ++ '-' :: padNat t.month 2 ++ '-' :: padNat t.day 2
    ++ 'T' :: padNat t.hour 2 ++ ':' :: padNat t.minute 2 ++ ':' :: padNat t.second 2
    ++ formatNano t.nanosecond ++ formatZone t.offset

/-- The year failure of `Time.MarshalJSON`. -/
def errTimeYear : Error := .other "Time.MarshalJSON: year outside of range [0,9999]"

/-- The zone failure of `Time.MarshalJSON`. -/
def errTimeZone : Error := .other "Time.MarshalJSON: timezone hour outside of range [0,23]"

/-- Go's `Time.MarshalJSON`: the quoted RFC 3339 text, refused when the year
is not four digits wide or the zone offset reaches 24 hours. -/
def encodeTime (t : Time) : Except Error (List Char) :=
  if t.year < 0 ∨ 9999 < t.year then .error errTimeYear
  else if t.offset ≠ 0 ∧ 24 ≤ t.offset.natAbs / 60 / 60 then .error errTimeZone
  else .ok ('"' :: (formatRFC3339Nano t ++ ['"']))

/-- The JSON object of a `Product`: the five fields in declaration order
under the keys of their `json` tags. -/
def encodeProduct (fmtFloat : Float64 → String) (p : Product) : Except Error (List Char) :=
  match encodeFloat fmtFloat p.Price with
  | .error e => .error e
  | .ok price =>
    match encodeTime p.CreatedAt with
    | .error e => .error e
    | .ok created =>
      .ok ("\x7b\"id\":".data ++ formatInt p.ID
        ++ ",\"title\":".data ++ encodeString p.Title
        ++ ",\"description\":".data ++ encodeString p.Description
        ++ ",\"price\":".data ++ price
        ++ ",\"created_at\":".data ++ created ++ ['\x7d'])

/-- A `*Product` as JSON: `null` for the nil pointer. -/
def encodeProductPtr (fmtFloat : Float64 → String) : Option Product → Except Error (List Char)
  | none => .ok "null".data
  | some p => encodeProduct fmtFloat p

/-- The elements of a slice, each preceded by a comma. -/
def encodeTail (fmtFloat : Float64 → String) : List (Option Product) → Except Error (List Char)
  | [] => .ok []
  | p :: ps =>
    match encodeProductPtr fmtFloat p with
    | .error e => .error e
    | .ok x =>
      match encodeTail fmtFloat ps with
      | .error e => .error e
      | .ok xs => .ok (',' :: (x ++ xs))

/-- A `[]*Product` as JSON: `null` for the nil slice, else the array of its
elements in order. -/
def encodeProducts (fmtFloat : Float64 → String) :
    Option (List (Option Product)) → Except Error (List Char)
  | none => .ok "null".data
  | some [] => .ok "[]".data
  | some (p :: ps) =>
    match encodeProductPtr fmtFloat p with
    | .error e => .error e
    | .ok x =>
      match encodeTail fmtFloat ps with
      | .error e => .error e
      | .ok xs => .ok ('[' :: (x ++ xs ++ [']']))

/-- Go's `json.NewEncoder(w).Encode(v)` on an already marshalled value: a
marshalling failure is returned with nothing written; otherwise the JSON text
and a newline are written to `w`. -/
def Encode (w : ResponseWriter) (json : Except Error (List Char)) :
    ResponseWriter × Option Error :=
  match json with
  | .error e => (w, some e)
  | .ok cs => (w.Write (String.mk (cs ++ ['\n'])), none)

/-! ## database/sql -/

/-- A column value as the driver hands it to `database/sql`, for the column
kinds of the products table; `null` is SQL NULL. -/
inductive Value where
  | null
  | int (i : Int)
  | float (f : Float64)
  | text (s : String)
  | time (t : Time)
  deriving DecidableEq, Repr

/-- The conversions `Rows.Scan` attempts when a non-NULL column value is not
of the destination's own kind (it goes through the value's string form);
they are taken as a parameter. -/
structure Coerce where
  toInt : Value → Except Error Int
  toText : Value → Except Error String
  toFloat : Value → Except Error Float64
  toTime : Value → Except Error Time

/-- The failure of `Rows.Scan` on a NULL column with a non-nullable
destination. -/
def errScanNull : Error := .other "sql: Scan error: converting NULL is unsupported"

/-- The failure of `Rows.Scan` when the number of destinations is not the
number of columns. -/
def errScanArity : Error := .other "sql: expected 5 destination arguments in Scan"

/-- Scanning a column into an `*int`. -/
def scanInt (cv : Coerce) : Value → Except Error Int
  | .int i => .ok i
  | .null => .error errScanNull
  | v => cv.toInt v

/-- Scanning a column into a `*string`. -/
def scanText (cv : Coerce) : Value → Except Error String
  | .text s => .ok s
  | .null => .error errScanNull
  | v => cv.toText v

/-- Scanning a column into a `*float64`. -/
def scanFloat (cv : Coerce) : Value → Except Error Float64
  | .float f => .ok f
  | .null => .error errScanNull
  | v => cv.toFloat v

/-- Scanning a column into a `*time.Time`. -/
def scanTime (cv : Coerce) : Value → Except Error Time
  | .time t => .ok t
  | .null => .error errScanNull
  | v => cv.toTime v

/-- The call `Scan(&product.ID, &product.Title, &product.Description,
&product.Price, &product.CreatedAt)` on one result row: five columns are
expected, and the columns are converted into the fields by position, left to
right, stopping at the first failure. -/
def Scan (cv : Coerce) (row : List Value) : Except Error Product :=
  match row with
  | [c0, c1, c2, c3, c4] =>
    match scanInt cv c0 with
    | .error e => .error e
    | .ok id =>
      match scanText cv c1 with
      | .error e => .error e
      | .ok title =>
        match scanText cv c2 with
        | .error e => .error e
        | .ok description =>
          match scanFloat cv c3 with
          | .error e => .error e
          | .ok price =>
            match scanTime cv c4 with
            | .error e => .error e
            | .ok created =>
              .ok { ID := id, Title := title, Description := description,
                    Price := price, CreatedAt := created }
  | _ => .error errScanArity

/-- A result cursor (`*sql.Rows`): the rows `Next` delivers in order, the
error `Err` reports once `Next` has returned false, and the error `Close`
returns. -/
structure Rows where
  rows : List (List Value)
  err : Option Error
  closeErr : Option Error
  deriving DecidableEq, Repr

/-- A `select <columns> from <table>` statement, with `filter := some c` for
a trailing `where c = $1`. -/
structure Statement where
  columns : List String
  table : String
  filter : Option String
  deriving DecidableEq, Repr

/-- The statement of `AllProducts`. -/
def selectAll : Statement :=
  { columns := ["id", "title", "description", "price", "created_at"],
    table := "products", filter := none }

/-- The statement of `FindProduct`. -/
def selectByID : Statement :=
  { columns := ["id", "title", "description", "price", "created_at"],
    table := "products", filter := some "id" }

/-- The database handle: what `db.Query` answers to a statement and its
arguments, a failure or a cursor. -/
structure DB where
  Query : Statement → List Value → Except Error Rows

/-- The loop of `AllProducts` over the delivered rows: each row is scanned
into a new `Product` appended to `products`; the first scan failure ends the
loop with that failure. -/
def scanAll (cv : Coerce) :
    List (List Value) → List (Option Product) → Except Error (List (Option Product))
  | [], products => .ok products
  | row :: rest, products =>
    match Scan cv row with
    | .error e => .error e
    | .ok product => scanAll cv rest (products ++ [some product])

/-- The method `(*DB).AllProducts`. -/
def AllProducts (cv : Coerce) (db : DB) : Option (List (Option Product)) × Option Error :=
  match db.Query selectAll [] with
  | .error e => (none, some e)
  | .ok rows =>
    match scanAll cv rows.rows [] with
    | .error e => (none, some e)
    | .ok products =>
      match rows.err with
      | some e => (none, some e)
      | none => (some products, none)

/-- The method `(*DB).FindProduct`: `QueryRow` followed by `Row.Scan`, which
reports the query's failure, else `sql.ErrNoRows` (or the cursor's error)
when no row is delivered, else scans the first row and closes the cursor. -/
def FindProduct (cv : Coerce) (db : DB) (ID : Int) : Option Product × Option Error :=
  match db.Query selectByID [.int ID] with
  | .error e => (none, some e)
  | .ok rows =>
    match rows.rows with
    | [] =>
      match rows.err with
      | some e => (none, some e)
      | none => (none, some .ErrNoRows)
    | row :: _ =>
      match Scan cv row with
      | .error e => (none, some e)
      | .ok product =>
        match rows.closeErr with
        | some e => (none, some e)
        | none => (some product, none)

/-! ## The relational backend -/

/-- A row of the table `products(id, title, description, price, created_at)`,
with the column types of the entity. -/
structure TableRow where
  id : Int
  title : String
  description : String
  price : Float64
  created_at : Time
  deriving DecidableEq, Repr

/-- The value of a named column of a row, `none` for a column the table does
not have. -/
def TableRow.column (r : TableRow) (name : String) : Option Value :=
  if name = "id" then some (.int r.id)
  else if name = "title" then some (.text r.title)
  else if name = "description" then some (.text r.description)
  else if name = "price" then some (.float r.price)
  else if name = "created_at" then some (.time r.created_at)
  else none

/-- The failure of a statement the backend cannot run. -/
def errBackend : Error := .other "pq: statement failed"

/-- A row projected onto the selected columns, in the order the statement
lists them; `none` when a column does not exist. -/
def project (r : TableRow) : List String → Option (List Value)
  | [] => some []
  | c :: cs =>
    match r.column c, project r cs with
    | some v, some vs => some (v :: vs)
    | _, _ => none

/-- The projection of each row, in order. -/
def projectAll (columns : List String) : List TableRow → Option (List (List Value))
  | [] => some []
  | r :: rs =>
    match project r columns, projectAll columns rs with
    | some v, some vs => some (v :: vs)
    | _, _ => none

/-- A backend whose table `products` holds the rows `t` and that runs every
statement without failure: the rows of the table, in table order, that pass
the filter, each projected onto the selected columns. -/
def tableDB (t : List TableRow) : DB where
  Query st args :=
    if st.table ≠ "products" then .error errBackend
    else
      let kept : Option (List TableRow) :=
        match st.filter, args with
        | none, [] => some t
        | some c, [a] => some (t.filter (fun r => decide (r.column c = some a)))
        | _, _ => none
      match kept with
      | none => .error errBackend
      | some rs =>
        match projectAll st.columns rs with
        | none => .error errBackend
        | some rows => .ok { rows := rows, err := none, closeErr := none }

/-- A row of the table `products` as the backend stores it: each of the five
columns holds a value of any kind, SQL NULL included. -/
structure StoredRow where
  id : Value
  title : Value
  description : Value
  price : Value
  created_at : Value
  deriving DecidableEq, Repr

/-- The value of a named column of a stored row, `none` for a column the
table does not have. -/
def StoredRow.column (r : StoredRow) (name : String) : Option Value :=
  if name = "id" then some r.id
  else if name = "title" then some r.title
  else if name = "description" then some r.description
  else if name = "price" then some r.price
  else if name = "created_at" then some r.created_at
  else none

/-- A stored row projected onto the selected columns, in the order the
statement lists them; `none` when a column does not exist. -/
def projectStored (r : StoredRow) : List String → Option (List Value)
  | [] => some []
  | c :: cs =>
    match r.column c, projectStored r cs with
    | some v, some vs => some (v :: vs)
    | _, _ => none

/-- The projection of each stored row, in order. -/
def projectAllStored (columns : List String) : List StoredRow → Option (List (List Value))
  | [] => some []
  | r :: rs =>
    match projectStored r columns, projectAllStored columns rs with
    | some v, some vs => some (v :: vs)
    | _, _ => none

/-- A backend whose table `products` holds the stored rows `t` and that runs
every statement without failure: the rows of the table, in table order, whose
filter column holds the argument, each projected onto the selected columns. -/
def storedDB (t : List StoredRow) : DB where
  Query st args :=
    if st.table ≠ "products" then .error errBackend
    else
      let kept : Option (List StoredRow) :=
        match st.filter, args with
        | none, [] => some t
        | some c, [a] => some (t.filter (fun r => decide (r.column c = some a)))
        | _, _ => none
      match kept with
      | none => .error errBackend
      | some rs =>
        match projectAllStored st.columns rs with
        | none => .error errBackend
        | some rows => .ok { rows := rows, err := none, closeErr := none }

/-- A typed row as the backend stores it: no column is NULL. -/
def TableRow.stored (r : TableRow) : StoredRow :=
  { id := .int r.id, title := .text r.title, description := .text r.description,
    price := .float r.price, created_at := .time r.created_at }

/-! ## The server -/

/-- The `DataStore` interface: any implementation of the two operations. -/
structure DataStore where
  AllProducts : Option (List (Option Product)) × Option Error
  FindProduct : Int → Option Product × Option Error

/-- The `DB` as a `DataStore`. -/
def DB.store (cv : Coerce) (db : DB) : DataStore :=
  { AllProducts := RestExample.AllProducts cv db,
    FindProduct := RestExample.FindProduct cv db }

/-- The `Server` struct. -/
structure Server where
  db : DataStore

/-- A store operation a handler invoked. -/
inductive StoreCall where
  | AllProducts
  | FindProduct (ID : Int)
  deriving DecidableEq, Repr

/-- What a handler reads of the request: the route parameters. -/
structure Request where
  params : List (String × String)
  deriving DecidableEq, Repr

/-- Go's `params[k]`: the empty string for an absent key. -/
def Request.param (r : Request) (k : String) : String :=
  ((r.params.find? (fun kv => kv.1 == k)).map (fun kv => kv.2)).getD ""

/-- Everything a handler can affect: the response writer, the store
operations invoked so far, and the error lines logged so far. -/
structure World where
  w : ResponseWriter
  calls : List StoreCall
  logs : List (String × Error)
  deriving DecidableEq, Repr

/-- The world a request starts in. -/
def World.fresh : World := { w := .fresh, calls := [], logs := [] }

/-- A logged error line (`logrus.Errorf(format, err)`). -/
def World.errorf (σ : World) (format : String) (e : Error) : World :=
  { σ with logs := σ.logs ++ [(format, e)] }

/-- The effect of `http.Error(w, http.StatusText(code), code)`. -/
def World.fail (σ : World) (code : Nat) : World :=
  { σ with w := httpError σ.w (StatusText code) code }

/-- The handler `(*Server).listProducts`. -/
def listProducts (fmtFloat : Float64 → String) (s : Server) (_r : Request) (σ : World) : World :=
  let σ1 := { σ with calls := σ.calls ++ [StoreCall.AllProducts] }
  match s.db.AllProducts with
  | (_, some err) => (σ1.errorf "error fetching products: %v" err).fail 500
  | (products, none) =>
    match Encode σ1.w (encodeProducts fmtFloat products) with
    | (w, some err) => ({ σ1 with w := w }.errorf "error encoding products: %v" err).fail 500
    | (w, none) => { σ1 with w := w }

/-- The handler `(*Server).showProduct`. -/
def showProduct (fmtFloat : Float64 → String) (s : Server) (r : Request) (σ : World) : World :=
  match Atoi (r.param "id") with
  | .error err => (σ.errorf "could not parse ID: %v" err).fail 400
  | .ok id =>
    let σ1 := { σ with calls := σ.calls ++ [StoreCall.FindProduct id] }
    match s.db.FindProduct id with
    | (_, some err) =>
      if err = Error.ErrNoRows then σ1.fail 404
      else (σ1.errorf "error fetching product: %v" err).fail 500
    | (product, none) =>
      match Encode σ1.w (encodeProductPtr fmtFloat product) with
      | (w, some err) => ({ σ1 with w := w }.errorf "error encoding product: %v" err).fail 500
      | (w, none) => { σ1 with w := w }

/-- The handler `createProduct`: an empty body. -/
def createProduct (_r : Request) (σ : World) : World := σ

/-- The handler `updateProduct`: an empty body. -/
def updateProduct (_r : Request) (σ : World) : World := σ

/-- The handler `deleteProduct`: an empty body. -/
def deleteProduct (_r : Request) (σ : World) : World := σ

/-- The method `(*Server).Serve`, up to the mux it hands to
`http.ListenAndServe`: the routes it registers on the group `/products`, in
order, each a verb, a path pattern and a handler. -/
def Server.Serve (fmtFloat : Float64 → String) (s : Server) :
    List (String × String × (Request → World → World)) :=
  [ ("GET", "/products" ++ "/", listProducts fmtFloat s),
    ("GET", "/products" ++ "/:id", showProduct fmtFloat s),
    ("POST", "/products" ++ "/", createProduct),
    ("PATCH", "/products" ++ "/", updateProduct),
    ("DELETE", "/products" ++ "/:id", deleteProduct) ]

/-- The handler registered for a verb and a path pattern. -/
def Server.handler (fmtFloat : Float64 → String) (s : Server) (verb pattern : String) :
    Option (Request → World → World) :=
  ((s.Serve fmtFloat).find? (fun e => e.1 == verb && e.2.1 == pattern)).map (fun e => e.2.2)

/-! ## Sample data -/

/-- A sample timestamp, 2020-01-02 03:04:05 UTC. -/
def sampleTime : Time :=
  { year := 2020, month := 1, day := 2, hour := 3, minute := 4, second := 5,
    nanosecond := 0, offset := 0 }

/-- The float64 nearest to 9.99. -/
def price999 : Float64 := { bits := 0x4023FAE147AE147B }

/-- The row of the spec's scenario. -/
def widgetRow : TableRow :=
  { id := 1, title := "Widget", description := "A widget", price := price999,
    created_at := sampleTime }

/-- The product of the spec's scenario. -/
def widget : Product :=
  { ID := 1, Title := "Widget", Description := "A widget", Price := price999,
    CreatedAt := sampleTime }

/-- A formatter that agrees with `strconv` on the sample price. -/
def sampleFmt : Float64 → String := fun _ => "9.99"

/-- A `Coerce` that refuses every conversion between kinds. -/
def strictCoerce : Coerce :=
  { toInt := fun _ => .error errBackend, toText := fun _ => .error errBackend,
    toFloat := fun _ => .error errBackend, toTime := fun _ => .error errBackend }

/-- A request whose route parameter `id` is `v`. -/
def requestFor (v : String) : Request := { params := [("id", v)] }

/-! ## Specification-side definitions and sample backends -/

/-- The five column values of a row, in the order both statements select
them. -/
def rowValues (r : TableRow) : List Value :=
  [.int r.id, .text r.title, .text r.description, .float r.price, .time r.created_at]

/-- A store whose `FindProduct` always fails with a connection error. -/
def brokenStore : DataStore :=
  { AllProducts := (none, some (.other "connection refused")),
    FindProduct := fun _ => (none, some (.other "connection refused")) }

/-- A second row, to have a table of two. -/
def gadgetRow : TableRow :=
  { id := 7, title := "Gadget", description := "", price := { bits := 0 },
    created_at := sampleTime }

/-- A stored row that carries the widget's id a second time, with other
contents. -/
def copyRow : StoredRow :=
  { id := .int 1, title := .text "Copy", description := .text "A copy",
    price := .float price999, created_at := .time sampleTime }

/-- A stored row whose description is NULL. -/
def nullDescriptionRow : StoredRow :=
  { id := .int 3, title := .text "Gizmo", description := .null,
    price := .float price999, created_at := .time sampleTime }

/-- The five column values of a stored row, in the order both statements
select them. -/
def storedValues (r : StoredRow) : List Value :=
  [r.id, r.title, r.description, r.price, r.created_at]

/-- A store that fails `AllProducts` while handing back a product all the
same. -/
def leakyStore : DataStore :=
  { AllProducts := (some [some widget], some (.other "connection reset")),
    FindProduct := fun _ => (some widget, none) }

/-- A backend that delivers the widget's row, then a row with a NULL title,
and ends cleanly. -/
def nullTitleDB : DB :=
  { Query := fun _ _ => .ok
      { rows := [rowValues widgetRow,
                 [.int 2, .null, .text "", .float price999, .time sampleTime]],
        err := none, closeErr := none } }

/-- A backend that delivers the widget's row and then reports an iteration
error. -/
def brokenCursorDB : DB :=
  { Query := fun _ _ => .ok
      { rows := [rowValues widgetRow], err := some (.other "unexpected EOF"), closeErr := none } }

/-- A backend that refuses the query. -/
def refusingDB : DB := { Query := fun _ _ => .error (.other "connection refused") }

/-- The JSON object the spec describes for a product: the keys `id`,
`title`, `description`, `price`, `created_at` in that order, each with the
field's value. -/
def specObject (fmtFloat : Float64 → String) (p : Product) : List Char :=
  "\x7b\"id\":".data ++ formatInt p.ID
    ++ ",\"title\":".data ++ encodeString p.Title
    ++ ",\"description\":".data ++ encodeString p.Description
    ++ ",\"price\":".data ++ (fmtFloat p.Price).data
    ++ ",\"created_at\":\"".data ++ formatRFC3339Nano p.CreatedAt ++ "\"\x7d".data

/-- The products `encoding/json` can write: a finite price, and a creation
time whose year has four digits and whose zone offset is under 24 hours. -/
def Encodable (p : Product) : Prop :=
  p.Price.isNaN = false ∧ p.Price.isInf = false ∧
  0 ≤ p.CreatedAt.year ∧ p.CreatedAt.year ≤ 9999 ∧
  p.CreatedAt.offset.natAbs / 60 / 60 < 24

/-- Whether a product is encodable can be computed. -/
instance instDecidableEncodable (p : Product) : Decidable (Encodable p) := by
  unfold Encodable
  exact inferInstance

/-- A product whose price is NaN. -/
def nanRow : TableRow := { widgetRow with price := { bits := 0x7FF8000000000000 } }

/-- What holds of every response of the two read handlers: a 200 response has
no content type set, and any other response has status 400, 404 or 500, the
plain-text content type, and the status text of its code as body. -/
def ContentTypeLaw (w : ResponseWriter) : Prop :=
  (w.status = 200 → w.get "Content-Type" = none) ∧
  (w.status ≠ 200 →
    (w.status = 400 ∨ w.status = 404 ∨ w.status = 500) ∧
    w.get "Content-Type" = some "text/plain; charset=utf-8" ∧
    w.body = StatusText w.status ++ "\n")

/-! ## Lemmas on the response writer -/

theorem httpError_code (w : ResponseWriter) (msg : String) (c : Nat) (h : w.code = none) :
    (httpError w msg c).code = some c := by
  simp [httpError, ResponseWriter.Write, ResponseWriter.WriteHeader, ResponseWriter.set,
    ResponseWriter.del, h]

theorem httpError_body (w : ResponseWriter) (msg : String) (c : Nat) (h : w.code = none) :
    (httpError w msg c).body = w.body ++ (msg ++ "\n") := by
  simp [httpError, ResponseWriter.Write, ResponseWriter.WriteHeader, ResponseWriter.set,
    ResponseWriter.del, h]

theorem httpError_contentType (w : ResponseWriter) (msg : String) (c : Nat) (h : w.code = none) :
    (httpError w msg c).get "Content-Type" = some "text/plain; charset=utf-8" := by
  simp [httpError, ResponseWriter.Write, ResponseWriter.WriteHeader, ResponseWriter.set,
    ResponseWriter.del, ResponseWriter.get, h]

/-! ## showProduct: the parameter does not parse -/

/-- C1. For every store and every request whose route parameter `id` makes
`strconv.Atoi` fail, `showProduct` responds 400 with the status text of 400,
and the trace of store operations stays empty. -/
theorem showProduct_unparsable_id (fmtFloat : Float64 → String) (s : Server) (r : Request)
    (e : Error) (h : Atoi (r.param "id") = .error e) :
    (showProduct fmtFloat s r .fresh).w.status = 400 ∧
    (showProduct fmtFloat s r .fresh).w.body = StatusText 400 ++ "\n" ∧
    (showProduct fmtFloat s r .fresh).calls = [] := by
  unfold showProduct
  rw [h]
  refine ⟨rfl, rfl, rfl⟩

/-- The route parameter `abc` is refused with 400 without a store call. -/
theorem showProduct_unparsable_id_witness :
    Atoi ((requestFor "abc").param "id") = .error errSyntax ∧
    (showProduct sampleFmt ⟨(tableDB [widgetRow]).store strictCoerce⟩ (requestFor "abc")
      .fresh).w.status = 400 ∧
    (showProduct sampleFmt ⟨(tableDB [widgetRow]).store strictCoerce⟩ (requestFor "abc")
      .fresh).calls = [] :=
  have h := showProduct_unparsable_id sampleFmt ⟨(tableDB [widgetRow]).store strictCoerce⟩
    (requestFor "abc") errSyntax (by decide)
  ⟨by decide, h.1, h.2.2⟩

/-! ## Lemmas on the backend -/

theorem project_columns (r : TableRow) :
    project r ["id", "title", "description", "price", "created_at"] = some (rowValues r) := by
  simp [project, TableRow.column, rowValues]

theorem projectAll_columns (rs : List TableRow) :
    projectAll ["id", "title", "description", "price", "created_at"] rs
      = some (rs.map rowValues) := by
  induction rs with
  | nil => rfl
  | cons r rs ih => simp [projectAll, project_columns, ih]

theorem tableDB_selectAll (t : List TableRow) :
    (tableDB t).Query selectAll []
      = .ok { rows := t.map rowValues, err := none, closeErr := none } := by
  simp [tableDB, selectAll, projectAll_columns]

theorem tableDB_selectByID (t : List TableRow) (id : Int) :
    (tableDB t).Query selectByID [.int id]
      = .ok { rows := (t.filter (fun r => decide (r.id = id))).map rowValues,
              err := none, closeErr := none } := by
  simp [tableDB, selectByID, projectAll_columns, TableRow.column]

theorem Scan_rowValues (cv : Coerce) (r : TableRow) :
    Scan cv (rowValues r)
      = .ok { ID := r.id, Title := r.title, Description := r.description,
              Price := r.price, CreatedAt := r.created_at } := by
  simp [Scan, rowValues, scanInt, scanText, scanFloat, scanTime]

theorem FindProduct_tableDB (cv : Coerce) (t : List TableRow) (id : Int) :
    FindProduct cv (tableDB t) id =
      match t.find? (fun r => decide (r.id = id)) with
      | none => (none, some .ErrNoRows)
      | some r => (some { ID := r.id, Title := r.title, Description := r.description,
                          Price := r.price, CreatedAt := r.created_at }, none) := by
  unfold FindProduct
  rw [tableDB_selectByID]
  induction t with
  | nil => rfl
  | cons r rs ih =>
    by_cases h : r.id = id
    · simp [List.filter, List.find?, h, Scan_rowValues]
    · simpa [List.filter, List.find?, h] using ih

/-! ## showProduct: the id is not in the table -/

/-- C2. For every table and every route parameter that parses to an integer
`id` which no row of the table carries, `FindProduct` returns the nil product
with `sql.ErrNoRows`, and `showProduct` on the database store responds 404
with the status text of 404. -/
theorem showProduct_absent_id (fmtFloat : Float64 → String) (cv : Coerce)
    (t : List TableRow) (r : Request) (id : Int)
    (hid : Atoi (r.param "id") = .ok id) (habs : ∀ row ∈ t, row.id ≠ id) :
    FindProduct cv (tableDB t) id = (none, some .ErrNoRows) ∧
    (showProduct fmtFloat ⟨(tableDB t).store cv⟩ r .fresh).w.status = 404 ∧
    (showProduct fmtFloat ⟨(tableDB t).store cv⟩ r .fresh).w.body = StatusText 404 ++ "\n" := by
  have hnone : t.find? (fun x => decide (x.id = id)) = none := by
    rw [List.find?_eq_none]
    intro x hx
    simpa using habs x hx
  have hf : FindProduct cv (tableDB t) id = (none, some .ErrNoRows) := by
    rw [FindProduct_tableDB, hnone]
  refine ⟨hf, ?_, ?_⟩ <;>
  · unfold showProduct
    rw [hid]
    simp only [DB.store, hf]
    rfl

/-- The table holds only id 1; `GET /products/2` is answered 404. -/
theorem showProduct_absent_id_witness :
    FindProduct strictCoerce (tableDB [widgetRow]) 2 = (none, some .ErrNoRows) ∧
    (showProduct sampleFmt ⟨(tableDB [widgetRow]).store strictCoerce⟩ (requestFor "2")
      .fresh).w.status = 404 :=
  have h := showProduct_absent_id sampleFmt strictCoerce [widgetRow] (requestFor "2") 2
    (by decide) (by decide)
  ⟨h.1, h.2.1⟩

/-! ## showProduct: the store fails -/

/-- C3. For every store and every route parameter that parses to an integer
`id` on which the store's `FindProduct` returns an error other than
`sql.ErrNoRows`, `showProduct` responds 500 with the status text of 500 as
body; the status is neither 404 nor 200. -/
theorem showProduct_store_failure (fmtFloat : Float64 → String) (s : Server) (r : Request)
    (id : Int) (p : Option Product) (e : Error)
    (hid : Atoi (r.param "id") = .ok id) (hf : s.db.FindProduct id = (p, some e))
    (hne : e ≠ .ErrNoRows) :
    (showProduct fmtFloat s r .fresh).w.status = 500 ∧
    (showProduct fmtFloat s r .fresh).w.body = StatusText 500 ++ "\n" ∧
    (showProduct fmtFloat s r .fresh).w.status ≠ 404 ∧
    (showProduct fmtFloat s r .fresh).w.status ≠ 200 := by
  have hs : showProduct fmtFloat s r .fresh =
      (({ World.fresh with calls := World.fresh.calls ++ [StoreCall.FindProduct id] } : World).errorf
        "error fetching product: %v" e).fail 500 := by
    unfold showProduct
    rw [hid]
    simp only [hf, if_neg hne]
  rw [hs]
  refine ⟨rfl, rfl, ?_, ?_⟩ <;>
  · show (500 : Nat) ≠ _
    decide

/-- With a store that reports a connection error, `GET /products/1` is
answered 500. -/
theorem showProduct_store_failure_witness :
    (showProduct sampleFmt ⟨brokenStore⟩ (requestFor "1") .fresh).w.status = 500 ∧
    (showProduct sampleFmt ⟨brokenStore⟩ (requestFor "1") .fresh).w.body
      = "Internal Server Error\n" :=
  have h := showProduct_store_failure sampleFmt ⟨brokenStore⟩ (requestFor "1") 1 none
    (.other "connection refused") (by decide) rfl (by decide)
  ⟨h.1, h.2.1⟩

/-! ## FindProduct: a stored row comes back field by field -/

/-- On the selected columns a stored row projects to its five values. -/
theorem projectStored_columns (r : StoredRow) :
    projectStored r ["id", "title", "description", "price", "created_at"]
      = some (storedValues r) := by
  simp [projectStored, StoredRow.column, storedValues]

/-- On the selected columns a list of stored rows projects row by row. -/
theorem projectAllStored_columns (rs : List StoredRow) :
    projectAllStored ["id", "title", "description", "price", "created_at"] rs
      = some (rs.map storedValues) := by
  induction rs with
  | nil => rfl
  | cons r rs ih => simp [projectAllStored, projectStored_columns, ih]

/-- The answer of the stored-row backend to the statement of `FindProduct`:
the rows whose id column holds the integer asked for. -/
theorem storedDB_selectByID (t : List StoredRow) (id : Int) :
    (storedDB t).Query selectByID [.int id]
      = .ok { rows := (t.filter (fun r => decide (r.id = Value.int id))).map storedValues,
              err := none, closeErr := none } := by
  simp [storedDB, selectByID, projectAllStored_columns, StoredRow.column]

/-- On the stored-row backend `FindProduct` scans the first row whose id
column holds the integer asked for, and reports `sql.ErrNoRows` when there is
none. -/
theorem FindProduct_storedDB (cv : Coerce) (t : List StoredRow) (id : Int) :
    FindProduct cv (storedDB t) id =
      match t.find? (fun r => decide (r.id = Value.int id)) with
      | none => (none, some .ErrNoRows)
      | some r =>
        match Scan cv (storedValues r) with
        | .error e => (none, some e)
        | .ok product => (some product, none) := by
  unfold FindProduct
  rw [storedDB_selectByID]
  induction t with
  | nil => rfl
  | cons r rs ih =>
    by_cases h : r.id = Value.int id
    · simp only [List.filter, List.find?, h, decide_True, List.map_cons]
    · simpa [List.filter, List.find?, h] using ih

/-- The first stored row carrying a given id is the given row, when the row
is in the table, carries the id, and no other row of the table does. -/
theorem find?_storedRow_of_unique (t : List StoredRow) (r : StoredRow) (id : Int)
    (hid : r.id = Value.int id)
    (huniq : ∀ other ∈ t, other.id = Value.int id → other = r) (hr : r ∈ t) :
    t.find? (fun x => decide (x.id = Value.int id)) = some r := by
  induction t with
  | nil => cases hr
  | cons x xs ih =>
    by_cases hx : x.id = Value.int id
    · have hxr : x = r := huniq x (List.mem_cons_self x xs) hx
      subst hxr
      simp [List.find?, hx]
    · have hmem : r ∈ xs := by
        rcases List.mem_cons.1 hr with h | h
        · exact absurd (h ▸ hid) hx
        · exact h
      simpa [List.find?, hx] using
        ih (fun other ho => huniq other (List.mem_cons_of_mem x ho)) hmem

/-- To the statement of `FindProduct` the typed backend answers as the
stored-row backend does on the same rows. -/
theorem tableDB_selectByID_stored (t : List TableRow) (id : Int) :
    (tableDB t).Query selectByID [.int id]
      = (storedDB (t.map TableRow.stored)).Query selectByID [.int id] := by
  rw [tableDB_selectByID, storedDB_selectByID]
  induction t with
  | nil => rfl
  | cons r rs ih =>
    by_cases h : r.id = id
    · simpa [List.filter, TableRow.stored, h, rowValues, storedValues] using ih
    · simpa [List.filter, TableRow.stored, h] using ih

/-- C8, as stated, fails, in two ways. The table holds the widget's row and a
second row with the same id 1 and the title `Copy`: the second row is stored
in the table, yet `FindProduct 1` returns the widget, whose title is not
`Copy`. And the table holds the single row (3, Gizmo, NULL, 9.99, T): the row
is stored, yet `FindProduct 3` fails, whatever the conversions, and
`showProduct` answers 500. -/
theorem FindProduct_roundtrip_fails :
    copyRow ∈ [widgetRow.stored, copyRow] ∧
    FindProduct strictCoerce (storedDB [widgetRow.stored, copyRow]) 1 = (some widget, none) ∧
    widget.Title ≠ "Copy" ∧
    nullDescriptionRow ∈ [nullDescriptionRow] ∧
    (∀ cv : Coerce, FindProduct cv (storedDB [nullDescriptionRow]) 3
      = (none, some errScanNull)) ∧
    (∀ cv : Coerce,
      (showProduct sampleFmt ⟨(storedDB [nullDescriptionRow]).store cv⟩ (requestFor "3")
        .fresh).w.status = 500) :=
  ⟨by decide, by decide, by decide, by decide, fun _ => rfl, fun _ => rfl⟩

/-- C8, amended. For every table of stored rows on a backend that runs the
statement, and every row stored in it whose five columns hold, without NULL,
an integer `id`, a text `title`, a text `description`, a float `price` and a
timestamp `created_at`, and whose id no other row of the table carries,
`FindProduct` on `id` succeeds with the `Product` whose `ID`, `Title`,
`Description`, `Price` and `CreatedAt` are exactly those five values, each
column in the field of its name. -/
theorem FindProduct_roundtrip (cv : Coerce) (t : List StoredRow) (row : StoredRow)
    (id : Int) (title description : String) (price : Float64) (created_at : Time)
    (hrow : row ∈ t)
    (hcols : row = { id := .int id, title := .text title, description := .text description,
                     price := .float price, created_at := .time created_at })
    (huniq : ∀ other ∈ t, other.id = Value.int id → other = row) :
    FindProduct cv (storedDB t) id =
      (some { ID := id, Title := title, Description := description,
              Price := price, CreatedAt := created_at }, none) := by
  have hid : row.id = Value.int id := by rw [hcols]
  rw [FindProduct_storedDB, find?_storedRow_of_unique t row id hid huniq hrow]
  subst hcols
  simp [Scan, storedValues, scanInt, scanText, scanFloat, scanTime]

/-- In the table of the widget, the gadget and a row with a NULL description,
the gadget's id finds the gadget. -/
theorem FindProduct_roundtrip_witness :
    FindProduct strictCoerce
        (storedDB [widgetRow.stored, gadgetRow.stored, nullDescriptionRow]) 7 =
      (some { ID := 7, Title := "Gadget", Description := "", Price := { bits := 0 },
              CreatedAt := sampleTime }, none) :=
  FindProduct_roundtrip strictCoerce [widgetRow.stored, gadgetRow.stored, nullDescriptionRow]
    gadgetRow.stored 7 "Gadget" "" { bits := 0 } sampleTime (by decide) (by decide) (by decide)

/-! ## The empty table -/

/-- C5. On the backend whose products table has no rows, `AllProducts`
returns the empty non-nil slice and no error, and `listProducts` responds 200
with the JSON text `[]` (and the encoder's line end) as body: the body is not
`null`, and the status is none of the error statuses. -/
theorem listProducts_empty_table (fmtFloat : Float64 → String) (cv : Coerce) (r : Request) :
    AllProducts cv (tableDB []) = (some [], none) ∧
    (listProducts fmtFloat ⟨(tableDB []).store cv⟩ r .fresh).w.status = 200 ∧
    (listProducts fmtFloat ⟨(tableDB []).store cv⟩ r .fresh).w.body = "[]\n" ∧
    (listProducts fmtFloat ⟨(tableDB []).store cv⟩ r .fresh).w.body ≠ "null\n" ∧
    (listProducts fmtFloat ⟨(tableDB []).store cv⟩ r .fresh).w.status ∉ [400, 404, 500] := by
  have ha : AllProducts cv (tableDB []) = (some [], none) := by
    unfold AllProducts
    rw [tableDB_selectAll]
    rfl
  have hs : listProducts fmtFloat ⟨(tableDB []).store cv⟩ r .fresh =
      { w := ResponseWriter.fresh.Write "[]\n", calls := [StoreCall.AllProducts], logs := [] } := by
    unfold listProducts
    simp only [DB.store, ha]
    rfl
  rw [hs]
  exact ⟨ha, by decide, by decide, by decide, by decide⟩

/-- On the empty table the list is answered 200 with `[]`. -/
theorem listProducts_empty_table_witness :
    (listProducts sampleFmt ⟨(tableDB []).store strictCoerce⟩ (requestFor "") .fresh).w.status
      = 200 ∧
    (listProducts sampleFmt ⟨(tableDB []).store strictCoerce⟩ (requestFor "") .fresh).w.body
      = "[]\n" :=
  have h := listProducts_empty_table sampleFmt strictCoerce (requestFor "")
  ⟨h.2.1, h.2.2.1⟩

/-! ## listProducts: the store fails -/

/-- C6. For every store whose `AllProducts` returns an error (whatever
slice comes with it), `listProducts` responds 500, its body is the status
text of 500 and a line end and nothing else, and its content type is plain
text. -/
theorem listProducts_store_failure (fmtFloat : Float64 → String) (s : Server) (r : Request)
    (ps : Option (List (Option Product))) (e : Error) (hf : s.db.AllProducts = (ps, some e)) :
    (listProducts fmtFloat s r .fresh).w.status = 500 ∧
    (listProducts fmtFloat s r .fresh).w.body = StatusText 500 ++ "\n" ∧
    (listProducts fmtFloat s r .fresh).w.get "Content-Type"
      = some "text/plain; charset=utf-8" := by
  have hs : listProducts fmtFloat s r .fresh =
      (({ World.fresh with calls := World.fresh.calls ++ [StoreCall.AllProducts] } : World).errorf
        "error fetching products: %v" e).fail 500 := by
    unfold listProducts
    simp only [hf]
  rw [hs]
  exact ⟨rfl, rfl, httpError_contentType _ _ _ rfl⟩

/-- Even when the failing store hands back a product, the body is the status
text alone. -/
theorem listProducts_store_failure_witness :
    (listProducts sampleFmt ⟨leakyStore⟩ (requestFor "") .fresh).w.status = 500 ∧
    (listProducts sampleFmt ⟨leakyStore⟩ (requestFor "") .fresh).w.body
      = "Internal Server Error\n" :=
  have h := listProducts_store_failure sampleFmt ⟨leakyStore⟩ (requestFor "")
    (some [some widget]) (.other "connection reset") rfl
  ⟨h.1, h.2.1⟩

/-! ## AllProducts is all-or-nothing -/

theorem scanAll_ok (cv : Coerce) (rows : List (List Value)) (ps : List Product) :
    ∀ acc : List (Option Product), rows.map (Scan cv) = ps.map Except.ok →
      scanAll cv rows acc = .ok (acc ++ ps.map some) := by
  induction rows generalizing ps with
  | nil =>
    intro acc h
    cases ps with
    | nil => simp [scanAll]
    | cons p ps => simp at h
  | cons row rows ih =>
    intro acc h
    cases ps with
    | nil => simp at h
    | cons p ps =>
      simp only [List.map_cons, List.cons.injEq] at h
      simp only [scanAll, h.1]
      rw [ih ps (acc ++ [some p]) h.2]
      simp

theorem scanAll_error (cv : Coerce) (rows : List (List Value)) :
    ∀ acc : List (Option Product), (∃ row ∈ rows, ∃ e, Scan cv row = .error e) →
      ∃ e, scanAll cv rows acc = .error e := by
  induction rows with
  | nil =>
    intro acc h
    obtain ⟨row, hrow, _⟩ := h
    cases hrow
  | cons row rows ih =>
    intro acc h
    cases hs : Scan cv row with
    | error e => exact ⟨e, by simp [scanAll, hs]⟩
    | ok p =>
      obtain ⟨row', hrow', e, he⟩ := h
      rcases List.mem_cons.1 hrow' with h1 | h1
      · subst h1
        rw [hs] at he
        cases he
      · simp only [scanAll, hs]
        exact ih _ ⟨row', h1, e, he⟩

/-- C7. For every backend answer to the statement of `AllProducts`: when the
query fails, the result is the nil slice with that error; when the scan of
any delivered row fails, or the cursor ends with an error, the result is the
nil slice with an error, whatever rows were scanned before; and when every
row scans and the cursor ends without error, the result is, without error,
the slice of the scanned products, one for each row in the order
delivered. -/
theorem AllProducts_all_or_nothing (cv : Coerce) (db : DB) :
    (∀ e, db.Query selectAll [] = .error e → AllProducts cv db = (none, some e)) ∧
    (∀ rows, db.Query selectAll [] = .ok rows →
      ((∃ row ∈ rows.rows, ∃ e, Scan cv row = .error e) →
        ∃ e, AllProducts cv db = (none, some e)) ∧
      (∀ e, rows.err = some e → ∃ e', AllProducts cv db = (none, some e')) ∧
      (∀ ps : List Product, rows.rows.map (Scan cv) = ps.map Except.ok → rows.err = none →
        AllProducts cv db = (some (ps.map some), none))) := by
  refine ⟨?_, ?_⟩
  · intro e he
    simp [AllProducts, he]
  · intro rows hq
    refine ⟨?_, ?_, ?_⟩
    · intro hbad
      obtain ⟨e, he⟩ := scanAll_error cv rows.rows [] hbad
      exact ⟨e, by simp [AllProducts, hq, he]⟩
    · intro e he
      cases hs : scanAll cv rows.rows [] with
      | error e' => exact ⟨e', by simp [AllProducts, hq, hs]⟩
      | ok ps => exact ⟨e, by simp [AllProducts, hq, hs, he]⟩
    · intro ps hps herr
      have hs := scanAll_ok cv rows.rows ps [] hps
      simp [AllProducts, hq, hs, herr]

/-- The four cases at concrete backends: a refused query, a row that fails
to scan after one that scanned, a cursor error after a scanned row, and a
clean table of two rows. -/
theorem AllProducts_all_or_nothing_witness :
    AllProducts strictCoerce refusingDB = (none, some (.other "connection refused")) ∧
    (∃ e, AllProducts strictCoerce nullTitleDB = (none, some e)) ∧
    (∃ e, AllProducts strictCoerce brokenCursorDB = (none, some e)) ∧
    AllProducts strictCoerce (tableDB [widgetRow, gadgetRow])
      = (some [some widget,
               some { ID := 7, Title := "Gadget", Description := "", Price := { bits := 0 },
                      CreatedAt := sampleTime }], none) :=
  ⟨(AllProducts_all_or_nothing strictCoerce refusingDB).1 _ rfl,
   ((AllProducts_all_or_nothing strictCoerce nullTitleDB).2 _ rfl).1
     ⟨[.int 2, .null, .text "", .float price999, .time sampleTime], by decide,
      errScanNull, by decide⟩,
   ((AllProducts_all_or_nothing strictCoerce brokenCursorDB).2 _ rfl).2.1 _ rfl,
   ((AllProducts_all_or_nothing strictCoerce (tableDB [widgetRow, gadgetRow])).2 _
     (tableDB_selectAll _)).2.2
     [widget, { ID := 7, Title := "Gadget", Description := "", Price := { bits := 0 },
                CreatedAt := sampleTime }] (by decide) rfl⟩

/-! ## The stub handlers -/

/-- C10. The handlers registered for `POST /products/`, `PATCH /products/`
and `DELETE /products/:id` are `createProduct`, `updateProduct` and
`deleteProduct`; for every request each of them leaves the world as it found
it, so that on a fresh response writer no status code is written, the body is
empty, the client is sent 200, and the trace of store operations is empty. -/
theorem stub_handlers (fmtFloat : Float64 → String) (s : Server) (r : Request) :
    s.handler fmtFloat "POST" "/products/" = some createProduct ∧
    s.handler fmtFloat "PATCH" "/products/" = some updateProduct ∧
    s.handler fmtFloat "DELETE" "/products/:id" = some deleteProduct ∧
    ∀ h ∈ [createProduct, updateProduct, deleteProduct],
      (∀ σ : World, h r σ = σ) ∧
      (h r .fresh).w.code = none ∧ (h r .fresh).w.body = "" ∧
      (h r .fresh).w.status = 200 ∧ (h r .fresh).calls = [] := by
  refine ⟨rfl, rfl, rfl, ?_⟩
  intro h hh
  simp only [List.mem_cons, List.mem_singleton, List.not_mem_nil, or_false] at hh
  rcases hh with rfl | rfl | rfl <;> exact ⟨fun _ => rfl, rfl, rfl, rfl, rfl⟩

/-- The stub for `DELETE /products/:id` on a concrete request. -/
theorem stub_handlers_witness :
    (deleteProduct (requestFor "1") .fresh).w.status = 200 ∧
    (deleteProduct (requestFor "1") .fresh).w.body = "" ∧
    (deleteProduct (requestFor "1") .fresh).calls = [] :=
  have h := (stub_handlers sampleFmt ⟨brokenStore⟩ (requestFor "1")).2.2.2 deleteProduct
    (by simp)
  ⟨h.2.2.2.1, h.2.2.1, h.2.2.2.2⟩

/-! ## showProduct: the product is found -/

theorem encodeProduct_of_encodable (fmtFloat : Float64 → String) (p : Product)
    (h : Encodable p) : encodeProduct fmtFloat p = .ok (specObject fmtFloat p) := by
  obtain ⟨h1, h2, h3, h4, h5⟩ := h
  have hy : ¬ (p.CreatedAt.year < 0 ∨ 9999 < p.CreatedAt.year) := by omega
  have hz : ¬ (p.CreatedAt.offset ≠ 0 ∧ 24 ≤ p.CreatedAt.offset.natAbs / 60 / 60) := by omega
  simp [encodeProduct, encodeFloat, encodeTime, specObject, h1, h2, hy, hz]

theorem encodeProduct_of_not_encodable (fmtFloat : Float64 → String) (p : Product)
    (h : ¬ Encodable p) : ∃ e, encodeProduct fmtFloat p = .error e := by
  unfold encodeProduct encodeFloat
  by_cases hf : (p.Price.isInf || p.Price.isNaN) = true
  · exact ⟨errUnsupportedValue, by simp [hf]⟩
  · simp only [hf]
    unfold encodeTime
    by_cases hy : p.CreatedAt.year < 0 ∨ 9999 < p.CreatedAt.year
    · exact ⟨errTimeYear, by simp [hy]⟩
    · by_cases hz : p.CreatedAt.offset ≠ 0 ∧ 24 ≤ p.CreatedAt.offset.natAbs / 60 / 60
      · exact ⟨errTimeZone, by simp [hy, hz]⟩
      · exfalso
        apply h
        simp only [Bool.or_eq_true, not_or, Bool.not_eq_true] at hf
        refine ⟨hf.2, hf.1, by omega, by omega, ?_⟩
        by_cases h0 : p.CreatedAt.offset = 0
        · simp [h0]
        · have := not_and.1 hz h0
          omega

/-- C4, as stated, fails: the table holds the row (1, Widget, A widget, NaN,
T); the route parameter `1` parses, `FindProduct 1` succeeds with that
product, yet `showProduct` responds 500 with the status text of 500,
whatever the float formatter. -/
theorem showProduct_found_nan_price :
    Atoi ((requestFor "1").param "id") = .ok 1 ∧
    FindProduct strictCoerce (tableDB [nanRow]) 1 =
      (some { ID := 1, Title := "Widget", Description := "A widget",
              Price := { bits := 0x7FF8000000000000 }, CreatedAt := sampleTime }, none) ∧
    (∀ fmtFloat : Float64 → String,
      (showProduct fmtFloat ⟨(tableDB [nanRow]).store strictCoerce⟩ (requestFor "1")
        .fresh).w.status = 500) ∧
    (∀ fmtFloat : Float64 → String,
      (showProduct fmtFloat ⟨(tableDB [nanRow]).store strictCoerce⟩ (requestFor "1")
        .fresh).w.body = "Internal Server Error\n") :=
  ⟨by decide, by decide, fun _ => rfl, fun _ => rfl⟩

/-- C4, amended. For every store and every route parameter that parses to an
integer `id` on which the store's `FindProduct` succeeds with a product `p`:
when `p` is encodable, `showProduct` responds 200 and its body is the JSON
object of `p` (keys `id`, `title`, `description`, `price`, `created_at` in
that order with the field values) followed by a line end; when `p` is not
encodable, it responds 500 with the status text of 500. -/
theorem showProduct_found (fmtFloat : Float64 → String) (s : Server) (r : Request)
    (id : Int) (p : Product)
    (hid : Atoi (r.param "id") = .ok id) (hf : s.db.FindProduct id = (some p, none)) :
    (Encodable p →
      (showProduct fmtFloat s r .fresh).w.status = 200 ∧
      (showProduct fmtFloat s r .fresh).w.body = String.mk (specObject fmtFloat p ++ ['\n'])) ∧
    (¬ Encodable p →
      (showProduct fmtFloat s r .fresh).w.status = 500 ∧
      (showProduct fmtFloat s r .fresh).w.body = StatusText 500 ++ "\n") := by
  refine ⟨?_, ?_⟩
  · intro h
    have hs : showProduct fmtFloat s r .fresh =
        { w := ResponseWriter.fresh.Write (String.mk (specObject fmtFloat p ++ ['\n'])),
          calls := [StoreCall.FindProduct id], logs := [] } := by
      unfold showProduct
      rw [hid]
      simp only [hf, encodeProductPtr, encodeProduct_of_encodable fmtFloat p h, Encode]
      rfl
    rw [hs]
    refine ⟨rfl, ?_⟩
    simp [ResponseWriter.Write, ResponseWriter.WriteHeader, ResponseWriter.fresh]
  · intro h
    obtain ⟨e, he⟩ := encodeProduct_of_not_encodable fmtFloat p h
    have hs : showProduct fmtFloat s r .fresh =
        (({ w := ResponseWriter.fresh, calls := [StoreCall.FindProduct id], logs := [] }
          : World).errorf "error encoding product: %v" e).fail 500 := by
      unfold showProduct
      rw [hid]
      simp only [hf, encodeProductPtr, he, Encode]
      rfl
    rw [hs]
    exact ⟨rfl, rfl⟩

/-- The spec's scenario: the table holds the widget, and `GET /products/1` is
answered 200 with the widget's object. -/
theorem showProduct_found_witness :
    (showProduct sampleFmt ⟨(tableDB [widgetRow]).store strictCoerce⟩ (requestFor "1")
      .fresh).w.status = 200 ∧
    (showProduct sampleFmt ⟨(tableDB [widgetRow]).store strictCoerce⟩ (requestFor "1")
      .fresh).w.body =
      "\x7b\"id\":1,\"title\":\"Widget\",\"description\":\"A widget\",\"price\":9.99,\"created_at\":\"2020-01-02T03:04:05Z\"\x7d\n" :=
  have h := (showProduct_found sampleFmt ⟨(tableDB [widgetRow]).store strictCoerce⟩
    (requestFor "1") 1 widget (by decide) (by decide)).1 (by decide)
  ⟨h.1, h.2.trans (by decide)⟩

/-! ## Content types -/

theorem contentTypeLaw_write (b : String) : ContentTypeLaw (ResponseWriter.fresh.Write b) :=
  ⟨fun _ => rfl, fun h => absurd rfl h⟩

theorem contentTypeLaw_fail (σ : World) (code : Nat) (hw : σ.w = .fresh)
    (hc : code = 400 ∨ code = 404 ∨ code = 500) : ContentTypeLaw (σ.fail code).w := by
  have hnone : σ.w.code = none := by rw [hw]; rfl
  have hcode : (σ.fail code).w.status = code := by
    simp [World.fail, ResponseWriter.status, httpError_code _ _ _ hnone]
  refine ⟨?_, ?_⟩
  · intro h
    rw [hcode] at h
    omega
  · intro _
    rw [hcode]
    refine ⟨hc, httpError_contentType _ _ _ hnone, ?_⟩
    show (httpError σ.w (StatusText code) code).body = _
    rw [httpError_body _ _ _ hnone, hw]
    simp [ResponseWriter.fresh]

/-- C9, as stated, fails: on the table holding the widget, both
`GET /products/1` and `GET /products/` are answered 200, and neither response
has the content type `application/json`: no content type is set at all. -/
theorem success_without_json_content_type :
    (showProduct sampleFmt ⟨(tableDB [widgetRow]).store strictCoerce⟩ (requestFor "1")
      .fresh).w.status = 200 ∧
    (showProduct sampleFmt ⟨(tableDB [widgetRow]).store strictCoerce⟩ (requestFor "1")
      .fresh).w.get "Content-Type" ≠ some "application/json" ∧
    (listProducts sampleFmt ⟨(tableDB [widgetRow]).store strictCoerce⟩ (requestFor "")
      .fresh).w.status = 200 ∧
    (listProducts sampleFmt ⟨(tableDB [widgetRow]).store strictCoerce⟩ (requestFor "")
      .fresh).w.get "Content-Type" ≠ some "application/json" := by
  decide

/-- C9, amended. For every store and request, the response of `showProduct`
and the response of `listProducts` obey the content-type law: a 200 response
has no content type set by the handler, and every other response is a 400,
404 or 500 with content type `text/plain; charset=utf-8` and the status text
of its code as body. -/
theorem handlers_content_type (fmtFloat : Float64 → String) (s : Server) (r : Request) :
    ContentTypeLaw (showProduct fmtFloat s r .fresh).w ∧
    ContentTypeLaw (listProducts fmtFloat s r .fresh).w := by
  refine ⟨?_, ?_⟩
  · cases hA : Atoi (r.param "id") with
    | error e =>
      have hs : showProduct fmtFloat s r .fresh =
          (World.fresh.errorf "could not parse ID: %v" e).fail 400 := by
        unfold showProduct
        rw [hA]
      rw [hs]
      exact contentTypeLaw_fail _ 400 (by rfl) (by simp)
    | ok id =>
      rcases hf : s.db.FindProduct id with ⟨p, err⟩
      cases err with
      | some e =>
        by_cases he : e = Error.ErrNoRows
        · have hs : showProduct fmtFloat s r .fresh =
              ({ w := .fresh, calls := [StoreCall.FindProduct id], logs := [] } : World).fail
                404 := by
            unfold showProduct
            rw [hA]
            simp only [hf, he, if_true]
            rfl
          rw [hs]
          exact contentTypeLaw_fail _ 404 (by rfl) (by simp)
        · have hs : showProduct fmtFloat s r .fresh =
              (({ w := .fresh, calls := [StoreCall.FindProduct id], logs := [] } : World).errorf
                "error fetching product: %v" e).fail 500 := by
            unfold showProduct
            rw [hA]
            simp only [hf, he, if_false]
            rfl
          rw [hs]
          exact contentTypeLaw_fail _ 500 (by rfl) (by simp)
      | none =>
        cases henc : encodeProductPtr fmtFloat p with
        | error e =>
          have hs : showProduct fmtFloat s r .fresh =
              (({ w := .fresh, calls := [StoreCall.FindProduct id], logs := [] } : World).errorf
                "error encoding product: %v" e).fail 500 := by
            unfold showProduct
            rw [hA]
            simp only [hf, henc, Encode]
            rfl
          rw [hs]
          exact contentTypeLaw_fail _ 500 (by rfl) (by simp)
        | ok cs =>
          have hs : showProduct fmtFloat s r .fresh =
              { w := ResponseWriter.fresh.Write (String.mk (cs ++ ['\n'])),
                calls := [StoreCall.FindProduct id], logs := [] } := by
            unfold showProduct
            rw [hA]
            simp only [hf, henc, Encode]
            rfl
          rw [hs]
          exact contentTypeLaw_write _
  · rcases hf : s.db.AllProducts with ⟨ps, err⟩
    cases err with
    | some e =>
      have hs : listProducts fmtFloat s r .fresh =
          (({ w := .fresh, calls := [StoreCall.AllProducts], logs := [] } : World).errorf
            "error fetching products: %v" e).fail 500 := by
        unfold listProducts
        simp only [hf]
        rfl
      rw [hs]
      exact contentTypeLaw_fail _ 500 (by rfl) (by simp)
    | none =>
      cases henc : encodeProducts fmtFloat ps with
      | error e =>
        have hs : listProducts fmtFloat s r .fresh =
            (({ w := .fresh, calls := [StoreCall.AllProducts], logs := [] } : World).errorf
              "error encoding products: %v" e).fail 500 := by
          unfold listProducts
          simp only [hf, henc, Encode]
          rfl
        rw [hs]
        exact contentTypeLaw_fail _ 500 (by rfl) (by simp)
      | ok cs =>
        have hs : listProducts fmtFloat s r .fresh =
            { w := ResponseWriter.fresh.Write (String.mk (cs ++ ['\n'])),
              calls := [StoreCall.AllProducts], logs := [] } := by
          unfold listProducts
          simp only [hf, henc, Encode]
          rfl
        rw [hs]
        exact contentTypeLaw_write _

/-- The law at the spec's scenario: the 200 of `GET /products/1` has no
content type, and the 404 of `GET /products/2` is plain text. -/
theorem handlers_content_type_witness :
    (showProduct sampleFmt ⟨(tableDB [widgetRow]).store strictCoerce⟩ (requestFor "1")
      .fresh).w.get "Content-Type" = none ∧
    (showProduct sampleFmt ⟨(tableDB [widgetRow]).store strictCoerce⟩ (requestFor "2")
      .fresh).w.get "Content-Type" = some "text/plain; charset=utf-8" :=
  ⟨(handlers_content_type sampleFmt ⟨(tableDB [widgetRow]).store strictCoerce⟩
      (requestFor "1")).1.1 (by decide),
   ((handlers_content_type sampleFmt ⟨(tableDB [widgetRow]).store strictCoerce⟩
      (requestFor "2")).1.2 (by decide)).2.1⟩

end RestExample
